import Mathlib

/-!
Verification of the six-nations-scraping page component.

The component (src/app/page.tsx) reads the file `index.html` from the
process working directory, extracts the inner contents of the first
`<body[^>]*>...</body>` and `<style[^>]*>...</style>` regions with
non-greedy regular expressions, and injects both fragments verbatim into
the rendered output.

The regular expression `<tag[^>]*>([\s\S]*?)</tag>` (no flags) has a
deterministic matching semantics, which the definitions below embed:
- the engine tries start positions left to right and keeps the first one
  where the whole pattern matches;
- at a start position the literal `<tag` must be a prefix, then `[^>]*>`
  consumes exactly up to and including the first `>` (any shorter
  consumption places the mandatory `>` on a non-`>` character, any longer
  one is impossible since `[^>]` excludes `>`);
- the lazy group `([\s\S]*?)` then captures the shortest prefix of the
  remainder after which the closing literal `</tag>` occurs.
If no start position yields a full match, `String.prototype.match`
returns null and the code falls back to the empty string.

The filesystem interaction of the component is embedded by passing the
filesystem as a map from paths to optional contents and recording the
operations the render performs.
-/

namespace SixNations

/-- One filesystem operation performed during a render invocation. -/
inductive FsOp where
  | read : String → FsOp
  | write : String → String → FsOp
deriving DecidableEq, Repr

/-- Boolean prefix test on character lists, by direct recursion. -/
def startsWith : List Char → List Char → Bool
  | [], _ => true
  | _ :: _, [] => false
  | p :: ps, c :: cs => if p = c then startsWith ps cs else false

/-- Semantics of `[^>]*>`: consume characters up to and including the
first `>`; fails when no `>` remains. -/
def dropAfterGt : List Char → Option (List Char)
  | [] => none
  | c :: rest => if c = '>' then some rest else dropAfterGt rest

/-- Semantics of the lazy capture `([\s\S]*?)pat`: the shortest prefix
after which `pat` occurs; fails when `pat` never occurs. -/
def takeUntil (pat : List Char) : List Char → Option (List Char)
  | [] => if startsWith pat [] then some [] else none
  | c :: rest =>
    if startsWith pat (c :: rest) then some []
    else (takeUntil pat rest).map (fun p => c :: p)

/-- The literal `<tag` that must open a match. -/
def openTag (tag : List Char) : List Char := '<' :: tag

/-- The literal `</tag>` that closes a match. -/
def closeTag (tag : List Char) : List Char := '<' :: '/' :: (tag ++ ['>'])

/-- Attempt to match `<tag[^>]*>([\s\S]*?)</tag>` at the start of `s`,
returning the capture group. -/
def matchAt (tag : List Char) (s : List Char) : Option (List Char) :=
  if startsWith (openTag tag) s then
    match dropAfterGt (s.drop (openTag tag).length) with
    | none => none
    | some rest => takeUntil (closeTag tag) rest
  else none

/-- First-match semantics: try each start position left to right. -/
def scanMatch (tag : List Char) : List Char → Option (List Char)
  | [] => none
  | c :: rest =>
    match matchAt tag (c :: rest) with
    | some r => some r
    | none => scanMatch tag rest

/-- The tag name of the body pattern `/<body[^>]*>([\s\S]*?)<\/body>/`. -/
def bodyTag : List Char := ['b', 'o', 'd', 'y']

/-- The tag name of the style pattern `/<style[^>]*>([\s\S]*?)<\/style>/`. -/
def styleTag : List Char := ['s', 't', 'y', 'l', 'e']

/-- `htmlContent.match(re)` followed by `m ? m[1] : ""`. -/
def extractFragment (tag : List Char) (htmlContent : String) : String :=
  match scanMatch tag htmlContent.data with
  | some r => String.mk r
  | none => ""

/-- `bodyContent` of the source: capture of the first body match, else `""`. -/
def bodyContent (htmlContent : String) : String :=
  extractFragment bodyTag htmlContent

/-- `styleContent` of the source: capture of the first style match, else `""`. -/
def styleContent (htmlContent : String) : String :=
  extractFragment styleTag htmlContent

/-- The rendered output: a style node and a content node, both receiving
their fragment verbatim (`dangerouslySetInnerHTML`). -/
structure Rendered where
  styleHtml : String
  bodyHtml : String
deriving DecidableEq, Repr

/-- The pure part of the render: extract both fragments from the text. -/
def renderPage (htmlContent : String) : Rendered :=
  ⟨styleContent htmlContent, bodyContent htmlContent⟩

/-- `path.join(cwd, "index.html")`. -/
def pathJoin (a b : String) : String := a ++ "/" ++ b

/-- The render invocation `Page`, with the filesystem passed explicitly:
it resolves `index.html` against the working directory, reads it
(`fs.readFileSync` throws when the file is absent, embedded as
`Except.error`), and otherwise renders the extracted fragments.  The
second component records every filesystem operation performed. -/
def Page (cwd : String) (fs : String → Option String) :
    Except String Rendered × List FsOp :=
  let htmlPath := pathJoin cwd "index.html"
  match fs htmlPath with
  | none => (Except.error "ENOENT", [FsOp.read htmlPath])
  | some htmlContent => (Except.ok (renderPage htmlContent), [FsOp.read htmlPath])

/-- Two successive render invocations on the same working directory and
unchanged filesystem. -/
def pageTwice (cwd : String) (fs : String → Option String) :
    (Except String Rendered × List FsOp) × (Except String Rendered × List FsOp) :=
  (Page cwd fs, Page cwd fs)

/-- The body pattern opens at position `i` of `s`. -/
def opensTagAt (tag s : List Char) (i : Nat) : Bool :=
  startsWith (openTag tag) (s.drop i)

/-- The closing literal `</tag>` occurs at position `i` of `s`. -/
def closesTagAt (tag s : List Char) (i : Nat) : Bool :=
  startsWith (closeTag tag) (s.drop i)

/-- A filesystem with no files at all. -/
def emptyFs : String → Option String := fun _ => none

/-- A filesystem answering every path with the same contents. -/
def constFs (c : String) : String → Option String := fun _ => some c

lemma startsWith_append_self : ∀ (p w : List Char), startsWith p (p ++ w) = true
  | [], _ => rfl
  | a :: p, w => by simp [startsWith, startsWith_append_self p w]

lemma matchAt_eq_none {tag s : List Char}
    (h : startsWith (openTag tag) s = false) : matchAt tag s = none := by
  simp [matchAt, h]

/-- Scanning skips a prefix at whose positions no match can open. -/
lemma scanMatch_skip (tag : List Char) : ∀ (pre t : List Char),
    (∀ i, i < pre.length → matchAt tag (List.drop i (pre ++ t)) = none) →
    scanMatch tag (pre ++ t) = scanMatch tag t
  | [], _, _ => rfl
  | c :: pre, t, h => by
    have h0 : matchAt tag (c :: (pre ++ t)) = none := by
      have := h 0 (Nat.succ_pos _)
      simpa using this
    have ih := scanMatch_skip tag pre t (fun i hi => by
      have := h (i + 1) (Nat.succ_lt_succ hi)
      simpa using this)
    simpa [scanMatch, h0] using ih

/-- When the pattern never opens, the scan fails. -/
lemma scanMatch_eq_none (tag : List Char) : ∀ (s : List Char),
    (∀ i, i < s.length → opensTagAt tag s i = false) →
    scanMatch tag s = none
  | [], _ => rfl
  | c :: s, h => by
    have h0 : matchAt tag (c :: s) = none := by
      refine matchAt_eq_none ?_
      have := h 0 (Nat.succ_pos _)
      simpa [opensTagAt] using this
    have ih := scanMatch_eq_none tag s (fun i hi => by
      have := h (i + 1) (Nat.succ_lt_succ hi)
      simpa [opensTagAt] using this)
    simpa [scanMatch, h0] using ih

/-- The lazy capture stops exactly where the closing pattern first
occurs: if `pat` is nowhere in the part covering `u` and starts right at
`v`, the capture is `u`. -/
lemma takeUntil_exact (pat : List Char) : ∀ (u v : List Char),
    (∀ i, i < u.length → startsWith pat (List.drop i (u ++ v)) = false) →
    startsWith pat v = true →
    takeUntil pat (u ++ v) = some u
  | [], v, _, hv => by
    cases v with
    | nil => simp [takeUntil, hv]
    | cons c rest => simp [takeUntil, hv]
  | a :: u, v, h, hv => by
    have h0 : startsWith pat (a :: (u ++ v)) = false := by
      have := h 0 (Nat.succ_pos _)
      simpa using this
    have ih := takeUntil_exact pat u v (fun i hi => by
      have := h (i + 1) (Nat.succ_lt_succ hi)
      simpa using this) hv
    simp [takeUntil, h0, ih]

/-- A plain opening tag `<tag>` at the head, whose region content `u`
contains no closing tag and is followed by the closing tag at the start
of `v`, matches with capture exactly `u`. -/
lemma scanMatch_open_plain (tag u v : List Char)
    (h : ∀ i, i < u.length → startsWith (closeTag tag) (List.drop i (u ++ v)) = false)
    (hv : startsWith (closeTag tag) v = true) :
    scanMatch tag (('<' :: tag) ++ ('>' :: (u ++ v))) = some u := by
  have hopen : startsWith (openTag tag) (('<' :: tag) ++ ('>' :: (u ++ v))) = true :=
    startsWith_append_self (openTag tag) ('>' :: (u ++ v))
  have hdrop : (('<' :: tag) ++ ('>' :: (u ++ v))).drop (openTag tag).length
      = '>' :: (u ++ v) := by
    simp [openTag]
  have hmatch : matchAt tag (('<' :: tag) ++ ('>' :: (u ++ v))) = some u := by
    rw [matchAt, if_pos (by simpa using hopen), hdrop]
    simp [dropAfterGt, takeUntil_exact (closeTag tag) u v h hv]
  cases htag : ('<' :: tag) ++ ('>' :: (u ++ v)) with
  | nil => simp at htag
  | cons c rest =>
    rw [scanMatch]
    rw [htag] at hmatch
    rw [hmatch]

example : bodyContent "<body>Hello</body>" = "Hello" := by decide
example : bodyContent "x<body class=\"x\">Hi</body>y" = "Hi" := by decide
example : bodyContent "<body>A</body><body>B</body>" = "A" := by decide
example : bodyContent "<bodyx>Hi</body>" = "Hi" := by decide
example : bodyContent "<BODY>Hi</BODY>" = "" := by decide
example : styleContent "<style>.a\x7bcolor:red\x7d</style>" = ".a\x7bcolor:red\x7d" := by decide
example : bodyContent "<body" = "" := by decide
example : bodyContent "<body><body>X</body>" = "<body>X" := by decide

example (w : List Char) :
    scanMatch bodyTag ("<body>Hello</body>".data ++ w) = some "Hello".data := rfl

/-- Claim C1: for every source text whose first body-tag-delimited region
is the literal substring of body tags around `Hello` (no body tag opens at
any earlier position), the body-fragment extraction returns exactly
`Hello`. -/
theorem C1_body_fragment_hello (pre post : String)
    (h : ∀ i, i < pre.length →
      opensTagAt bodyTag (pre ++ "<body>Hello</body>" ++ post).data i = false) :
    bodyContent (pre ++ "<body>Hello</body>" ++ post) = "Hello" := by
  have hdata : (pre ++ "<body>Hello</body>" ++ post).data
      = pre.data ++ ("<body>Hello</body>".data ++ post.data) := by
    simp [String.data_append]
  have hskip : scanMatch bodyTag (pre.data ++ ("<body>Hello</body>".data ++ post.data))
      = scanMatch bodyTag ("<body>Hello</body>".data ++ post.data) := by
    refine scanMatch_skip bodyTag _ _ (fun i hi => matchAt_eq_none ?_)
    have hh := h i hi
    rw [opensTagAt, hdata] at hh
    exact hh
  have hscan : scanMatch bodyTag ("<body>Hello</body>".data ++ post.data)
      = some "Hello".data := rfl
  simp only [bodyContent, extractFragment]
  rw [hdata, hskip, hscan]

/-- Witness for C1 at a concrete surrounding document. -/
theorem C1_witness :
    bodyContent ("<p>x</p>" ++ "<body>Hello</body>" ++ "<p>y</p>") = "Hello" :=
  C1_body_fragment_hello "<p>x</p>" "<p>y</p>" (by decide)

/-- Claim C5: attributes on the opening body tag are skipped by the
`[^>]*` part of the pattern, so the extraction still yields exactly the
inner contents. -/
theorem C5_attributes_ignored (pre post : String)
    (h : ∀ i, i < pre.length →
      opensTagAt bodyTag (pre ++ "<body class=\"x\">Hi</body>" ++ post).data i = false) :
    bodyContent (pre ++ "<body class=\"x\">Hi</body>" ++ post) = "Hi" := by
  have hdata : (pre ++ "<body class=\"x\">Hi</body>" ++ post).data
      = pre.data ++ ("<body class=\"x\">Hi</body>".data ++ post.data) := by
    simp [String.data_append]
  have hskip : scanMatch bodyTag
        (pre.data ++ ("<body class=\"x\">Hi</body>".data ++ post.data))
      = scanMatch bodyTag ("<body class=\"x\">Hi</body>".data ++ post.data) := by
    refine scanMatch_skip bodyTag _ _ (fun i hi => matchAt_eq_none ?_)
    have hh := h i hi
    rw [opensTagAt, hdata] at hh
    exact hh
  have hscan : scanMatch bodyTag ("<body class=\"x\">Hi</body>".data ++ post.data)
      = some "Hi".data := rfl
  simp only [bodyContent, extractFragment]
  rw [hdata, hskip, hscan]

/-- Witness for C5 at a concrete surrounding document. -/
theorem C5_witness :
    bodyContent ("<!-- a -->" ++ "<body class=\"x\">Hi</body>" ++ "tail") = "Hi" :=
  C5_attributes_ignored "<!-- a -->" "tail" (by decide)

/-- Claim C6: for every source text whose first style-tag-delimited
region is the literal style rule text, the style-fragment extraction
returns exactly that rule text. -/
theorem C6_style_fragment (pre post : String)
    (h : ∀ i, i < pre.length →
      opensTagAt styleTag (pre ++ "<style>.a\x7bcolor:red\x7d</style>" ++ post).data i = false) :
    styleContent (pre ++ "<style>.a\x7bcolor:red\x7d</style>" ++ post) = ".a\x7bcolor:red\x7d" := by
  have hdata : (pre ++ "<style>.a\x7bcolor:red\x7d</style>" ++ post).data
      = pre.data ++ ("<style>.a\x7bcolor:red\x7d</style>".data ++ post.data) := by
    simp [String.data_append]
  have hskip : scanMatch styleTag
        (pre.data ++ ("<style>.a\x7bcolor:red\x7d</style>".data ++ post.data))
      = scanMatch styleTag ("<style>.a\x7bcolor:red\x7d</style>".data ++ post.data) := by
    refine scanMatch_skip styleTag _ _ (fun i hi => matchAt_eq_none ?_)
    have hh := h i hi
    rw [opensTagAt, hdata] at hh
    exact hh
  have hscan : scanMatch styleTag ("<style>.a\x7bcolor:red\x7d</style>".data ++ post.data)
      = some ".a\x7bcolor:red\x7d".data := rfl
  simp only [styleContent, extractFragment]
  rw [hdata, hskip, hscan]

/-- Witness for C6 at a concrete surrounding document. -/
theorem C6_witness :
    styleContent ("<head>" ++ "<style>.a\x7bcolor:red\x7d</style>" ++ "</head>") =
      ".a\x7bcolor:red\x7d" :=
  C6_style_fragment "<head>" "</head>" (by decide)

/-- Claim C2: with two body regions present, the extraction returns the
inner contents of the first region only: the lazy capture stops at the
first closing body tag after the first opening tag, so the second
region's contents never appear in the fragment, whatever they are. -/
theorem C2_first_body_only (pre c1 mid c2 post : String)
    (hpre : ∀ i, i < pre.length →
      opensTagAt bodyTag
        (pre ++ "<body>" ++ c1 ++ "</body>" ++ mid ++ "<body>" ++ c2 ++ "</body>" ++ post).data
        i = false)
    (hc1 : ∀ i, i < c1.length →
      closesTagAt bodyTag
        (c1 ++ "</body>" ++ mid ++ "<body>" ++ c2 ++ "</body>" ++ post).data i = false) :
    bodyContent
      (pre ++ "<body>" ++ c1 ++ "</body>" ++ mid ++ "<body>" ++ c2 ++ "</body>" ++ post)
      = c1 := by
  have hb : ("<body>" : String).data = ('<' :: bodyTag) ++ ['>'] := rfl
  have htail : (c1 ++ "</body>" ++ mid ++ "<body>" ++ c2 ++ "</body>" ++ post).data
      = c1.data ++ ("</body>".data ++
          (mid.data ++ ("<body>".data ++ (c2.data ++ ("</body>".data ++ post.data))))) := by
    simp [String.data_append]
  have hdata :
      (pre ++ "<body>" ++ c1 ++ "</body>" ++ mid ++ "<body>" ++ c2 ++ "</body>" ++ post).data
      = pre.data ++ (('<' :: bodyTag) ++ ('>' :: (c1.data ++ ("</body>".data ++
          (mid.data ++ ("<body>".data ++ (c2.data ++ ("</body>".data ++ post.data)))))))) := by
    simp [String.data_append, hb, bodyTag]
  have hv : startsWith (closeTag bodyTag)
      ("</body>".data ++
        (mid.data ++ ("<body>".data ++ (c2.data ++ ("</body>".data ++ post.data))))) = true := rfl
  have hc1' : ∀ i, i < c1.data.length →
      startsWith (closeTag bodyTag)
        (List.drop i (c1.data ++ ("</body>".data ++
          (mid.data ++ ("<body>".data ++ (c2.data ++ ("</body>".data ++ post.data))))))) = false := by
    intro i hi
    have hh := hc1 i hi
    rw [closesTagAt, htail] at hh
    exact hh
  have hscan : scanMatch bodyTag
      (('<' :: bodyTag) ++ ('>' :: (c1.data ++ ("</body>".data ++
        (mid.data ++ ("<body>".data ++ (c2.data ++ ("</body>".data ++ post.data))))))))
      = some c1.data :=
    scanMatch_open_plain bodyTag c1.data _ hc1' hv
  have hskip : scanMatch bodyTag
      (pre.data ++ (('<' :: bodyTag) ++ ('>' :: (c1.data ++ ("</body>".data ++
        (mid.data ++ ("<body>".data ++ (c2.data ++ ("</body>".data ++ post.data)))))))))
      = scanMatch bodyTag
        (('<' :: bodyTag) ++ ('>' :: (c1.data ++ ("</body>".data ++
          (mid.data ++ ("<body>".data ++ (c2.data ++ ("</body>".data ++ post.data)))))))) := by
    refine scanMatch_skip bodyTag _ _ (fun i hi => matchAt_eq_none ?_)
    have hh := hpre i hi
    rw [opensTagAt, hdata] at hh
    exact hh
  simp only [bodyContent, extractFragment]
  rw [hdata, hskip, hscan]

/-- Witness for C2 at concrete contents of the two regions. -/
theorem C2_witness :
    bodyContent
      ("x" ++ "<body>" ++ "first" ++ "</body>" ++ "y" ++ "<body>" ++ "second" ++ "</body>" ++ "z")
      = "first" :=
  C2_first_body_only "x" "first" "y" "second" "z" (by decide) (by decide)

/-- Claim C3: when the file at the resolved path is absent (or
unreadable) the render propagates an error and never produces a rendered
output, empty or otherwise. -/
theorem C3_missing_file_fails (cwd : String) (fs : String → Option String)
    (h : fs (pathJoin cwd "index.html") = none) :
    (Page cwd fs).1 = Except.error "ENOENT" ∧
      ∀ r : Rendered, (Page cwd fs).1 ≠ Except.ok r := by
  refine ⟨by simp [Page, h], fun r => by simp [Page, h]⟩

/-- Witness for C3 on the empty filesystem. -/
theorem C3_witness :
    (Page "" emptyFs).1 = Except.error "ENOENT" :=
  (C3_missing_file_fails "" emptyFs rfl).1

/-- Claim C4: when the style pattern does not match, the style fragment
is the empty string and the render still completes successfully. -/
theorem C4_no_style_is_empty (htmlContent cwd : String) (fs : String → Option String)
    (hmatch : scanMatch styleTag htmlContent.data = none)
    (hfs : fs (pathJoin cwd "index.html") = some htmlContent) :
    styleContent htmlContent = "" ∧
      (Page cwd fs).1 = Except.ok (renderPage htmlContent) := by
  refine ⟨?_, by simp [Page, hfs]⟩
  simp only [styleContent, extractFragment, hmatch]

/-- Witness for C4 on a document with a body but no style tag. -/
theorem C4_witness :
    styleContent "<body>Hi</body>" = "" ∧
      (Page "" (constFs "<body>Hi</body>")).1 =
        Except.ok (renderPage "<body>Hi</body>") :=
  C4_no_style_is_empty "<body>Hi</body>" "" (constFs "<body>Hi</body>") rfl rfl

/-- Claim C7: the render is deterministic in the source text — two
invocations on the same unchanged filesystem produce identical output,
fragments and recorded effects alike. -/
theorem C7_deterministic (cwd : String) (fs : String → Option String) :
    (pageTwice cwd fs).1 = (pageTwice cwd fs).2 := rfl

/-- Claim C8: every render invocation performs exactly one filesystem
operation, a read of the resolved source path, and no write ever occurs. -/
theorem C8_read_only (cwd : String) (fs : String → Option String) :
    (Page cwd fs).2 = [FsOp.read (pathJoin cwd "index.html")] ∧
      ∀ p d, FsOp.write p d ∉ (Page cwd fs).2 := by
  cases hfs : fs (pathJoin cwd "index.html") with
  | none => exact ⟨by simp [Page, hfs], fun p d => by simp [Page, hfs]⟩
  | some c => exact ⟨by simp [Page, hfs], fun p d => by simp [Page, hfs]⟩

/-- Claim C9: the opening pattern accepts any tag name that merely begins
with `body` (resp. `style`): a document whose only opening tag is
`<bodyx>` still yields the captured contents `Hi`, and likewise for a
`<stylez>` tag. -/
theorem C9_tag_name_lax :
    bodyContent "<bodyx>Hi</body>" = "Hi" ∧
      styleContent "<stylez>.s</style>" = ".s" := by
  decide

/-- Claim C10: matching is case-sensitive: a text in which no lower-case
body opening tag occurs — such as one using only upper-case `BODY` tags —
extracts the empty body fragment, and likewise for `STYLE`. -/
theorem C10_case_sensitive (s t : String)
    (hs : ∀ i, i < s.data.length → opensTagAt bodyTag s.data i = false)
    (ht : ∀ i, i < t.data.length → opensTagAt styleTag t.data i = false) :
    bodyContent s = "" ∧ styleContent t = "" := by
  constructor
  · simp only [bodyContent, extractFragment, scanMatch_eq_none bodyTag s.data hs]
  · simp only [styleContent, extractFragment, scanMatch_eq_none styleTag t.data ht]

/-- Witness for C10 on upper-case documents. -/
theorem C10_witness :
    bodyContent "<BODY>Hi</BODY>" = "" ∧ styleContent "<STYLE>x</STYLE>" = "" :=
  C10_case_sensitive "<BODY>Hi</BODY>" "<STYLE>x</STYLE>" (by decide) (by decide)

end SixNations
